import Mathlib

/-!
Verification of the tytanic / typst-test repository's core store, VCS and
test-set components against their specification.

The Rust source is shallowly embedded: filesystem state is passed
explicitly, fallible operations return `Except IoErrorKind`, and the
standard library's filesystem primitives (`std::fs`) are modelled by
small executable semantics over explicit directory/file maps.
-/

/-- The subset of `std::io::ErrorKind` the embedded code distinguishes. -/
inductive IoErrorKind where
  | notFound
  | alreadyExists
  | other
deriving DecidableEq, Repr

/-- Embeds `util::result::ignore` (typst-test-lib `src/util.rs`): absorb an
error matching `check` into the default (here: an explicitly passed
recovery value, matching `T::default()` at the call sites where `T` is the
unchanged state). -/
def resultIgnore {E A : Type} (result : Except E A) (check : E → Bool) (dflt : A) :
    Except E A :=
  match result with
  | .error e => if check e then .ok dflt else .error e
  | x => x

/-- A directory path, as a list of components relative to the filesystem root. -/
abbrev DirPath := List String

/-- A filesystem of directories: the list of existing directory paths.
The root `[]` always exists. -/
abbrev DirFs := List DirPath

/-- Whether directory `p` exists in `fs` (the root always exists). -/
def dirExists (fs : DirFs) (p : DirPath) : Bool :=
  p.isEmpty || fs.contains p

/-- Models `std::fs::create_dir` (`all = false`) and `std::fs::create_dir_all`
(`all = true`): `create_dir` fails with `AlreadyExists` on an existing target
and with `NotFound` on a missing parent; `create_dir_all` also creates the
missing ancestors and succeeds on an existing target. -/
def rawCreateDir (fs : DirFs) (p : DirPath) (all : Bool) : Except IoErrorKind DirFs :=
  if all then
    .ok ((List.range p.length).map (fun k => p.take (k + 1)) ++ fs)
  else if dirExists fs p then
    .error .alreadyExists
  else if dirExists fs p.dropLast then
    .ok (p :: fs)
  else
    .error .notFound

/-- Models `std::fs::remove_dir` (`all = false`) and `std::fs::remove_dir_all`
(`all = true`): both fail with `NotFound` on a missing target; `remove_dir`
fails on a non-empty directory, `remove_dir_all` removes the whole subtree. -/
def rawRemoveDir (fs : DirFs) (p : DirPath) (all : Bool) : Except IoErrorKind DirFs :=
  if ¬ dirExists fs p then
    .error .notFound
  else if all then
    .ok (fs.filter (fun q => ¬ p.isPrefixOf q))
  else if fs.any (fun q => p.isPrefixOf q ∧ q ≠ p) then
    .error .other
  else
    .ok (fs.erase p)

/-- Embeds `util::fs::create_dir` (typst-test-lib `src/util.rs:81`): run the
raw creation and absorb `AlreadyExists`, leaving the filesystem unchanged. -/
def create_dir (fs : DirFs) (p : DirPath) (all : Bool) : Except IoErrorKind DirFs :=
  resultIgnore (rawCreateDir fs p all) (fun e => e = .alreadyExists) fs

/-- Embeds `util::fs::remove_dir` (typst-test-lib `src/util.rs:98`): run the
raw removal and absorb `NotFound` only when the parent directory exists;
a `NotFound` with a missing parent propagates, as do all other errors. -/
def remove_dir (fs : DirFs) (p : DirPath) (all : Bool) : Except IoErrorKind DirFs :=
  match rawRemoveDir fs p all with
  | .error e =>
    if e = .notFound then
      if dirExists fs p.dropLast then .ok fs else .error e
    else
      .error e
  | x => x

/-- The kind of VCS in use (tytanic-core `src/project/vcs.rs`, `Kind`). -/
inductive VcsKind where
  | git
  | mercurial
deriving DecidableEq, Repr

/-- The reference kind of a test (tytanic-core `crate::test::Kind`, as used
by `Vcs::ignore` through `is_persistent`). -/
inductive TestKind where
  | persistent
  | ephemeral
  | compileOnly
deriving DecidableEq, Repr

/-- Whether the test kind is persistent (`Kind::is_persistent`). -/
def TestKind.is_persistent : TestKind → Bool
  | .persistent => true
  | _ => false

/-- The files of a single test directory: an association of file name to
file content, in directory order. -/
abbrev TestDirFiles := List (String × String)

/-- Look up a file's content by name. -/
def lookupFile (files : TestDirFiles) (name : String) : Option String :=
  match files with
  | [] => none
  | (n, c) :: rest => if n = name then some c else lookupFile rest name

/-- Models `std::fs::write`: create the file or truncate and overwrite an
existing one. -/
def fsWriteFile (files : TestDirFiles) (name content : String) : TestDirFiles :=
  match files with
  | [] => [(name, content)]
  | (n, c) :: rest =>
    if n = name then (n, content) :: rest else (n, c) :: fsWriteFile rest name content

/-- Models `std::fs::remove_file`: fails with `NotFound` when the file does
not exist. -/
def fsRemoveFile (files : TestDirFiles) (name : String) : Except IoErrorKind TestDirFiles :=
  match files with
  | [] => .error .notFound
  | (n, c) :: rest =>
    if n = name then .ok rest
    else do pure ((n, c) :: (← fsRemoveFile rest name))

/-- The header of generated ignore files (`IGNORE_HEADER`,
tytanic-core `src/project/vcs.rs:21`). -/
def IGNORE_HEADER : String := "# generated by tytanic, do not edit"

/-- The name of the ignore file for a VCS kind (`GITIGNORE_NAME` /
`HGIGNORE_NAME`). -/
def ignoreFileName : VcsKind → String
  | .git => ".gitignore"
  | .mercurial => ".hgignore"

/-- The ignore file content assembled by `Vcs::ignore`
(tytanic-core `src/project/vcs.rs:83`): the header, a blank line, for
Mercurial the `syntax: glob` mode line, the entries `diff/**` and `out/**`,
and `ref/**` when the test kind is not persistent. -/
def ignoreContent (vk : VcsKind) (tk : TestKind) : String :=
  let content := IGNORE_HEADER ++ "\n\n"
  let content :=
    match vk with
    | .git => content
    | .mercurial => content ++ "syntax: glob\n"
  let content := content ++ "diff/**\n" ++ "out/**\n"
  if ¬ tk.is_persistent then content ++ "ref/**\n" else content

/-- Embeds `Vcs::ignore` (tytanic-core `src/project/vcs.rs:83`) restricted to
the files of the test's directory: write the ignore file for the VCS kind
with the generated content, overwriting any previous file. -/
def Vcs.ignore (vk : VcsKind) (tk : TestKind) (files : TestDirFiles) : TestDirFiles :=
  fsWriteFile files (ignoreFileName vk) (ignoreContent vk tk)

/-- Embeds `Vcs::unignore` (tytanic-core `src/project/vcs.rs:107`): remove
the ignore file with `std::fs::remove_file`, propagating every error. -/
def Vcs.unignore (vk : VcsKind) (files : TestDirFiles) : Except IoErrorKind TestDirFiles :=
  fsRemoveFile files (ignoreFileName vk)

/-- The reference kind of a test (typst-test-lib `src/test/mod.rs`,
`ReferenceKind`, as carried in `Test.ref_kind : Option<ReferenceKind>`). -/
inductive ReferenceKind where
  | ephemeral
  | persistent
deriving DecidableEq, Repr

/-- The test handle (typst-test-lib `src/store/test.rs:19`, `Test`). -/
structure Test where
  id : String
  ref_kind : Option ReferenceKind
  is_ignored : Bool
deriving DecidableEq, Repr

/-- References for a test (typst-test-lib `src/store/test.rs:27`,
`References`); a persistent reference document is its list of page contents. -/
inductive References where
  | ephemeral (source : String)
  | persistent (doc : List String)
deriving DecidableEq, Repr

/-- `Test::is_ephemeral`. -/
def Test.is_ephemeral (t : Test) : Bool :=
  match t.ref_kind with
  | some .ephemeral => true
  | _ => false

/-- The on-disk state of a single test's directory tree, together with the
per-target VCS ignore flags recorded by the `Vcs` trait calls of
typst-test-lib's store. `refDir` holds, when the directory exists, its
numbered PNG files as an association of page number to content. -/
structure TestFs where
  testDir : Bool
  testScript : Option String
  refScript : Option String
  refDir : Option (List (Nat × String))
  refIgnored : Bool
  outIgnored : Bool
  diffIgnored : Bool
deriving DecidableEq, Repr

/-- The test directory state with nothing on disk and nothing ignored. -/
def TestFs.empty : TestFs :=
  ⟨false, none, none, none, false, false, false⟩

/-- Insert a numbered page file into a reference directory listing,
overwriting the file when the number is already present. -/
def insertNumbered (files : List (Nat × String)) (k : Nat) (c : String) :
    List (Nat × String) :=
  match files with
  | [] => [(k, c)]
  | (n, v) :: rest =>
    if n = k then (k, c) :: rest else (n, v) :: insertNumbered rest k c

/-- Write pages numbered from `idx` upwards into a reference directory
listing. -/
def savePagesFrom (files : List (Nat × String)) (idx : Nat) (pages : List String) :
    List (Nat × String) :=
  match pages with
  | [] => files
  | p :: rest => savePagesFrom (insertNumbered files idx p) (idx + 1) rest

/-- Modelled from the spec: `Document::save` (typst-test-lib
`src/store/mod.rs`, not under the provided sources) "writes pages as
`1.png`, `2.png`, …"; existing files with other numbers are untouched. -/
def documentSave (files : List (Nat × String)) (doc : List String) :
    List (Nat × String) :=
  savePagesFrom files 1 doc

/-- Models Rust's `str::trim` on a character list: strip leading and
trailing whitespace. -/
def trimChars (l : List Char) : List Char :=
  ((l.dropWhile Char.isWhitespace).reverse.dropWhile Char.isWhitespace).reverse

/-- Models Rust's `str::lines`: split on `'\n'`, dropping a final empty
line and stripping a trailing `'\r'` from each line. -/
def rustLines (s : String) : List (List Char) :=
  let parts := s.data.splitOn '\n'
  let parts := if parts.getLast? = some [] then parts.dropLast else parts
  parts.map (fun l => if l.getLast? = some '\r' then l.dropLast else l)

/-- The `[ignored]` annotation scan of `Test::create` (typst-test-lib
`src/store/test.rs:109`): among the leading `///`-prefixed lines of the
source, some line's remainder after the prefix trims to `[ignored]`. -/
def isIgnoredOf (source : String) : Bool :=
  (((rustLines source).takeWhile (fun l => "///".data.isPrefixOf l)).filter
    (fun l =>
      "///".data.isPrefixOf l && trimChars (l.drop 3) = "[ignored]".data)).head?.isSome

/-- Embeds `Test::delete_reference_script` (typst-test-lib
`src/store/test.rs:197`). Modelled from the spec: the `util::fs::remove_file`
helper it calls is not under the provided `util.rs`; per spec §4.3 all fs
operations treat "not found" on delete as success. -/
def Test.delete_reference_script (st : TestFs) : Except IoErrorKind TestFs :=
  .ok {st with refScript := none}

/-- Embeds `Test::delete_reference_documents` (typst-test-lib
`src/store/test.rs:203`): `util::fs::remove_dir(ref_dir, true)`, which
absorbs "not found" only when the parent (the test dir) exists. -/
def Test.delete_reference_documents (st : TestFs) : Except IoErrorKind TestFs :=
  match st.refDir with
  | some _ => .ok {st with refDir := none}
  | none => if st.testDir then .ok st else .error .notFound

/-- Embeds `Test::create_reference_script` (typst-test-lib
`src/store/test.rs:152`): `std::fs::write` of the reference source, failing
when the test dir is missing. -/
def Test.create_reference_script (st : TestFs) (reference : String) :
    Except IoErrorKind TestFs :=
  if st.testDir then .ok {st with refScript := some reference} else .error .notFound

/-- Embeds `Test::create_reference_document` (typst-test-lib
`src/store/test.rs:162`): `util::fs::create_dir(ref_dir, true)` followed by
`Document::save` into the reference directory. -/
def Test.create_reference_document (st : TestFs) (reference : List String) :
    Except IoErrorKind TestFs :=
  .ok {st with
    testDir := true,
    refDir := some (documentSave (st.refDir.getD []) reference)}

/-- Modelled from the spec: the store `Vcs` trait's `ignore_target`
(typst-test-lib `src/store/vcs.rs`, not under the provided sources) marks a
target as ignored in the VCS; here recorded as per-target flags. Embeds
`Test::ignore_temporary_directories` (`src/store/test.rs:209`). -/
def Test.ignore_temporary_directories (t : Test) (st : TestFs) :
    Except IoErrorKind TestFs :=
  let st := if t.is_ephemeral then {st with refIgnored := true} else st
  .ok {st with outIgnored := true, diffIgnored := true}

/-- Embeds `Test::ignore_reference_documents` (typst-test-lib
`src/store/test.rs:224`): mark the reference directory as VCS-ignored. -/
def Test.ignore_reference_documents (st : TestFs) : Except IoErrorKind TestFs :=
  .ok {st with refIgnored := true}

/-- Embeds `Test::unignore_reference_documents` (typst-test-lib
`src/store/test.rs:234`): unmark the reference directory as VCS-ignored. -/
def Test.unignore_reference_documents (st : TestFs) : Except IoErrorKind TestFs :=
  .ok {st with refIgnored := false}

/-- Embeds `Test::create` (typst-test-lib `src/store/test.rs:86`):
`util::fs::create_dir(test_dir, true)` (absorbing an existing dir), open the
test script with `create_new` (failing with `AlreadyExists` when `test.typ`
exists), write the source, derive the reference kind and the `[ignored]`
annotation, write the references per kind, and ignore the temporary
directories in the VCS. -/
def Test.create (id : String) (source : String) (references : Option References)
    (st : TestFs) : Except IoErrorKind (Test × TestFs) := do
  let st := {st with testDir := true}
  if st.testScript.isSome then
    throw .alreadyExists
  else
    let st := {st with testScript := some source}
    let ref_kind :=
      match references with
      | some (.ephemeral _) => some ReferenceKind.ephemeral
      | some (.persistent _) => some ReferenceKind.persistent
      | none => none
    let test : Test := ⟨id, ref_kind, isIgnoredOf source⟩
    let st ←
      match references with
      | some (.ephemeral reference) => Test.create_reference_script st reference
      | some (.persistent reference) => Test.create_reference_document st reference
      | none => pure st
    let st ← Test.ignore_temporary_directories test st
    pure (test, st)

/-- Models `std::fs::copy` from the test script to the reference script
(typst-test-lib `src/store/test.rs:250`): fails with `NotFound` when the
source is missing. -/
def fsCopyTestToRef (st : TestFs) : Except IoErrorKind TestFs :=
  match st.testScript with
  | some s => .ok {st with refScript := some s}
  | none => .error .notFound

/-- Embeds `Test::make_ephemeral` (typst-test-lib `src/store/test.rs:245`):
delete both kinds of references, VCS-ignore the reference directory, copy
`test.typ` to `ref.typ`, and set the in-memory kind to ephemeral. -/
def Test.make_ephemeral (t : Test) (st : TestFs) :
    Except IoErrorKind (Test × TestFs) := do
  let st ← Test.delete_reference_script st
  let st ← Test.delete_reference_documents st
  let st ← Test.ignore_reference_documents st
  let st ← fsCopyTestToRef st
  pure ({t with ref_kind := some .ephemeral}, st)

/-- Embeds `Test::make_persistent` (typst-test-lib `src/store/test.rs:261`):
delete both kinds of references, create the reference document from the
given pages, VCS-unignore the reference directory, and set the in-memory
kind to persistent. -/
def Test.make_persistent (t : Test) (reference : List String) (st : TestFs) :
    Except IoErrorKind (Test × TestFs) := do
  let st ← Test.delete_reference_script st
  let st ← Test.delete_reference_documents st
  let st ← Test.create_reference_document st reference
  let st ← Test.unignore_reference_documents st
  pure ({t with ref_kind := some .persistent}, st)

/-- Embeds `Test::make_compile_only` (typst-test-lib
`src/store/test.rs:277`): delete both kinds of references and clear the
in-memory kind. -/
def Test.make_compile_only (t : Test) (st : TestFs) :
    Except IoErrorKind (Test × TestFs) := do
  let st ← Test.delete_reference_documents st
  let st ← Test.delete_reference_script st
  pure ({t with ref_kind := none}, st)

/-- Modelled from the spec: `collect` (typst-test-lib
`src/store/test/collector.rs`, not under the provided sources) decides the
kind "by presence of `ref.typ` (→ Ephemeral) else `ref/` (→ Persistent)
else `CompileOnly`" (spec §4.3). -/
def collectKind (st : TestFs) : Option ReferenceKind :=
  if st.refScript.isSome then some .ephemeral
  else if st.refDir.isSome then some .persistent
  else none

/-- The spec's §3 kind-to-shape table, stated in the spec's words for
comparison with the embedded operations: Persistent requires `test.typ`,
no `ref.typ`, and a non-empty `ref/`; Ephemeral requires `test.typ` and
`ref.typ` and no `ref/`; CompileOnly requires only `test.typ`. -/
def specShapeTable (k : Option ReferenceKind) (st : TestFs) : Bool :=
  match k with
  | some .persistent =>
    st.testScript.isSome && st.refScript.isNone &&
      (match st.refDir with
       | some pages => !pages.isEmpty
       | none => false)
  | some .ephemeral =>
    st.testScript.isSome && st.refScript.isSome && st.refDir.isNone
  | none =>
    st.testScript.isSome && st.refScript.isNone && st.refDir.isNone

/-- The kind-to-shape table with the non-emptiness requirement on `ref/`
dropped: the presence pattern of the three artefacts per kind. -/
def shapePresence (k : Option ReferenceKind) (st : TestFs) : Bool :=
  match k with
  | some .persistent =>
    st.testScript.isSome && st.refScript.isNone && st.refDir.isSome
  | some .ephemeral =>
    st.testScript.isSome && st.refScript.isSome && st.refDir.isNone
  | none =>
    st.testScript.isSome && st.refScript.isNone && st.refDir.isNone

/-- A test-set expression value (tytanic-core `src/test_set/eval`,
`Value`; the full enum is outside the provided sources — modelled with the
variants the arity checks of `func.rs` are exercised with). -/
inductive TsValue where
  | num (n : Nat)
  | str (s : String)
deriving DecidableEq, Repr

/-- Test-set evaluation errors (tytanic-core `src/test_set/eval`, `Error`,
restricted to the variants raised by `func.rs`). -/
inductive TsError where
  | invalidArgumentCount (func : String) (expected : Nat) (is_min : Bool) (found : Nat)
  | typeMismatch
deriving DecidableEq, Repr

/-- Embeds `Func::expect_no_args` (tytanic-core
`src/test_set/eval/func.rs:76`): succeed on an empty argument list,
otherwise raise `InvalidArgumentCount { expected: 0, is_min: false }`. -/
def Func.expect_no_args (id : String) (args : List TsValue) : Except TsError Unit :=
  if args.isEmpty then .ok ()
  else .error (.invalidArgumentCount id 0 false args.length)

/-- Embeds `Func::expect_args_exact` (tytanic-core
`src/test_set/eval/func.rs:91`): raise
`InvalidArgumentCount { expected: N, is_min: false }` when `args.len() < N`,
otherwise convert the first `N` arguments, propagating the first
conversion error. -/
def Func.expect_args_exact {T : Type} (tryFromValue : TsValue → Except TsError T)
    (func : String) (N : Nat) (args : List TsValue) : Except TsError (List T) :=
  if args.length < N then
    .error (.invalidArgumentCount func N false args.length)
  else
    (args.take N).mapM tryFromValue

/-- Embeds `Func::expect_args_min` (tytanic-core
`src/test_set/eval/func.rs:116`): raise
`InvalidArgumentCount { expected: N, is_min: true }` when `args.len() < N`,
otherwise convert the first `N` arguments and the variadic rest. -/
def Func.expect_args_min {T : Type} (tryFromValue : TsValue → Except TsError T)
    (func : String) (N : Nat) (args : List TsValue) :
    Except TsError (List T × List T) := do
  if args.length < N then
    throw (.invalidArgumentCount func N true args.length)
  else
    let min ← (args.take N).mapM tryFromValue
    let rest ← (args.drop N).mapM tryFromValue
    pure (min, rest)

/-- The `usize` conversion used by the repository's own `func.rs` tests:
accept `Value::Num`, otherwise raise a type mismatch. -/
def numFromValue : TsValue → Except TsError Nat
  | .num n => .ok n
  | _ => .error .typeMismatch

/-- An XML writer event (the subset of the `xml` crate's `XmlEvent` the
jUnit writer emits): element start with attributes, element end, text. -/
inductive XmlEvent where
  | startElement (name : String) (attrs : List (String × String))
  | endElement
  | characters (s : String)
deriving DecidableEq, Repr

/-- A panic of the embedded code (`todo!()`). -/
inductive Panic where
  | todoUnimplemented
deriving DecidableEq, Repr

/-- The suite result as consumed by the jUnit writer (tytanic-core
`src/suite`, `SuiteResult`; outside the provided sources — modelled with
the fields `write_to_string` and `write_suite_result` read, the rendered
duration and timestamp kept as the strings the writer would emit). -/
structure SuiteResultM where
  id : String
  total : Nat
  failed : Nat
  skipped : Nat
  time : String
  timestamp : String
  results : List Unit
deriving DecidableEq, Repr

/-- The `testsuite` attribute list both writers emit for a suite result. -/
def suiteAttrs (r : SuiteResultM) : List (String × String) :=
  [("name", r.id), ("tests", toString r.total), ("failures", toString r.failed),
   ("skipped", toString r.skipped), ("time", r.time), ("timestamp", r.timestamp)]

/-- Embeds `write_suite_result` (tytanic-core `src/suite/xml.rs:77`): emit a
`<testsuite>` start element, the `properties` block, then one test case per
result — where the code calls `write_test_result(w, &run_id, todo!(), result)`
and therefore panics on the first result; finally the end element. -/
def write_suite_result (r : SuiteResultM) : Except Panic (List XmlEvent) :=
  let evs : List XmlEvent :=
    [.startElement "testsuite" (suiteAttrs r),
     .startElement "properties" [],
     .startElement "property" [("name", "run-ID"), ("value", r.id)],
     .endElement,
     .startElement "property" [("name", "test-runner"), ("value", "tytanic")],
     .endElement,
     .endElement]
  match r.results with
  | [] => .ok (evs ++ [.endElement])
  | _ :: _ => .error .todoUnimplemented

/-- Embeds `write_to_string` (tytanic-core `src/suite/xml.rs:36`): emit a
`<testsuite>` start element with the suite attributes, delegate to
`write_suite_result`, then emit the end element. -/
def write_to_string (r : SuiteResultM) : Except Panic (List XmlEvent) := do
  let inner ← write_suite_result r
  pure (.startElement "testsuite" (suiteAttrs r) :: inner ++ [.endElement])

/-- The number of `<testsuite>` start elements in an event stream. -/
def countTestsuiteStarts (evs : List XmlEvent) : Nat :=
  evs.countP (fun e =>
    match e with
    | .startElement n _ => n = "testsuite"
    | _ => false)

/-- A discovered VCS (tytanic-core `src/project/vcs.rs:42`, `Vcs`): its
root directory and kind. -/
structure VcsM where
  root : DirPath
  kind : VcsKind
deriving DecidableEq, Repr

/-- Embeds `Vcs::try_new` (tytanic-core `src/project/vcs.rs:60`): a Git-kind
VCS when `.git` or `.jj` exists in the directory, a Mercurial-kind VCS when
`.hg` exists, otherwise none. -/
def Vcs.try_new (fs : DirFs) (root : DirPath) : Option VcsM :=
  if fs.contains (root ++ [".git"]) || fs.contains (root ++ [".jj"]) then
    some ⟨root, .git⟩
  else if fs.contains (root ++ [".hg"]) then
    some ⟨root, .mercurial⟩
  else
    none

/-- The name of the manifest file (`MANIFEST_FILE`,
tytanic-core `src/project/mod.rs:19`). -/
def MANIFEST_FILE : String := "typst.toml"

/-- Models `Path::ancestors`: the directory itself, then each parent up to
and including the root `[]`. -/
def pathAncestors (p : DirPath) : List DirPath :=
  p.inits.reverse

/-- The paths object (tytanic-core `src/project/mod.rs:27`, `Paths`):
project root and optional VCS root. -/
structure PathsM where
  project : DirPath
  vcs : Option DirPath
deriving DecidableEq, Repr

/-- The project handle (tytanic-core `src/project/mod.rs:132`, `Project`). -/
structure ProjectM where
  paths : PathsM
  vcs : Option VcsM
deriving DecidableEq, Repr

/-- The ancestor loop of `Project::discover` (tytanic-core
`src/project/mod.rs:158`): for each ancestor, probe for the manifest while
the project root is unknown and probe for a VCS while none was found,
recording the VCS root; stop early once both are known. -/
def discoverLoop (fs : DirFs) :
    List DirPath → Option DirPath → Option DirPath → Option VcsM →
      Option DirPath × Option DirPath × Option VcsM
  | [], pr, vr, v => (pr, vr, v)
  | d :: rest, pr, vr, v =>
    let pr :=
      if pr.isNone then
        if fs.contains (d ++ [MANIFEST_FILE]) then some d else pr
      else pr
    let (vr, v) :=
      if v.isNone then
        (some d,
         match Vcs.try_new fs d with
         | some found => some found
         | none => v)
      else (vr, v)
    if pr.isSome && v.isSome then (pr, vr, v)
    else discoverLoop fs rest pr vr v

/-- Embeds `Project::discover` (tytanic-core `src/project/mod.rs:148`):
walk the ancestors of `dir`, then return the project with the discovered
paths and VCS, or none when no manifest was found. -/
def Project.discover (fs : DirFs) (dir : DirPath) (is_project_root : Bool) :
    Option ProjectM :=
  let pr0 := if is_project_root then some dir else none
  match discoverLoop fs (pathAncestors dir) pr0 none none with
  | (none, _, _) => none
  | (some project, vr, v) => some ⟨⟨project, vr⟩, v⟩

/-- The nearest-ancestor VCS, stated in the spec's words: the VCS of the
first ancestor of `dir` (including `dir` itself) in which one of the
repository markers exists. -/
def nearestVcs (fs : DirFs) (dir : DirPath) : Option VcsM :=
  (pathAncestors dir).findSome? (Vcs.try_new fs)

/-- The reference kind determined by the references argument of
`Test::create` (typst-test-lib `src/store/test.rs:103`). -/
def referenceKindOf : Option References → Option ReferenceKind
  | some (.ephemeral _) => some .ephemeral
  | some (.persistent _) => some .persistent
  | none => none

/-- Split a string into its lines at every `'\n'` (used to state the line
structure of generated ignore files). -/
def splitLines (s : String) : List String :=
  (s.data.splitOn '\n').map List.asString

theorem lookupFile_none_fsRemoveFile (files : TestDirFiles) (name : String)
    (h : lookupFile files name = none) : fsRemoveFile files name = .error .notFound := by
  induction files with
  | nil => rfl
  | cons hd rest ih =>
    obtain ⟨n, c⟩ := hd
    unfold lookupFile at h
    unfold fsRemoveFile
    by_cases hn : n = name
    · simp [hn] at h
    · simp only [hn, if_false] at h ⊢
      rw [ih h]
      rfl

theorem lookupFile_eq_none_of_not_mem (files : TestDirFiles) (name : String)
    (h : name ∉ files.map Prod.fst) : lookupFile files name = none := by
  induction files with
  | nil => rfl
  | cons hd rest ih =>
    obtain ⟨n, c⟩ := hd
    simp only [List.map_cons, List.mem_cons] at h
    push_neg at h
    unfold lookupFile
    simp only [Ne.symm h.1, if_false]
    exact ih h.2

theorem fsRemoveFile_some (files : TestDirFiles) (name : String)
    (h : (lookupFile files name).isSome = true) :
    ∃ files', fsRemoveFile files name = .ok files' ∧
      ((files.map Prod.fst).Nodup → lookupFile files' name = none) := by
  induction files with
  | nil => simp [lookupFile] at h
  | cons hd rest ih =>
    obtain ⟨n, c⟩ := hd
    by_cases hn : n = name
    · refine ⟨rest, ?_, ?_⟩
      · unfold fsRemoveFile
        simp [hn]
      · intro hnd
        simp only [List.map_cons, List.nodup_cons] at hnd
        exact lookupFile_eq_none_of_not_mem rest name (hn ▸ hnd.1)
    · unfold lookupFile at h
      simp only [hn, if_false] at h
      obtain ⟨rest', hr, hl⟩ := ih h
      refine ⟨(n, c) :: rest', ?_, ?_⟩
      · unfold fsRemoveFile
        simp only [hn, if_false]
        rw [hr]
        rfl
      · intro hnd
        simp only [List.map_cons, List.nodup_cons] at hnd
        unfold lookupFile
        simp only [hn, if_false]
        exact hl hnd.2

theorem lookupFile_fsWriteFile (files : TestDirFiles) (name content : String) :
    lookupFile (fsWriteFile files name content) name = some content := by
  induction files with
  | nil => simp [fsWriteFile, lookupFile]
  | cons hd rest ih =>
    obtain ⟨n, c⟩ := hd
    by_cases hn : n = name
    · simp [fsWriteFile, lookupFile, hn]
    · simp only [fsWriteFile, hn, if_false]
      unfold lookupFile
      simp only [hn, if_false]
      exact ih

theorem fsWriteFile_fsWriteFile (files : TestDirFiles) (name c d : String) :
    fsWriteFile (fsWriteFile files name c) name d = fsWriteFile files name d := by
  induction files with
  | nil => simp [fsWriteFile]
  | cons hd rest ih =>
    obtain ⟨n, v⟩ := hd
    by_cases hn : n = name
    · simp [fsWriteFile, hn]
    · simp only [fsWriteFile, hn, if_false]
      rw [ih]

/-- Claim C5, counterexample: with an empty filesystem, removing the missing
directory `a/b` (whose parent `a` is also missing) propagates `NotFound`
instead of returning success, so `remove_dir` does not absorb "not found"
regardless of the surrounding directory state. -/
theorem c5_counterexample :
    dirExists ([] : DirFs) ["a", "b"] = false ∧
    remove_dir ([] : DirFs) ["a", "b"] true = .error .notFound := by
  refine ⟨rfl, ?_⟩
  rfl

/-- Claim C5 (amended): `create_dir` succeeds whenever the target already
exists; `remove_dir` absorbs "not found" into success exactly when the
parent directory exists, and propagates `NotFound` when the parent is
missing too. -/
theorem c5_fs_helpers :
    (∀ (fs : DirFs) (p : DirPath) (all : Bool), dirExists fs p = true →
      ∃ fs', create_dir fs p all = .ok fs') ∧
    (∀ (fs : DirFs) (p : DirPath) (all : Bool), dirExists fs p = false →
      dirExists fs p.dropLast = true → remove_dir fs p all = .ok fs) ∧
    (∀ (fs : DirFs) (p : DirPath) (all : Bool), dirExists fs p = false →
      dirExists fs p.dropLast = false → remove_dir fs p all = .error .notFound) := by
  refine ⟨?_, ?_, ?_⟩
  · intro fs p all h
    cases all with
    | false => exact ⟨fs, by simp [create_dir, rawCreateDir, resultIgnore, h]⟩
    | true => exact ⟨_, rfl⟩
  · intro fs p all h hp
    simp [remove_dir, rawRemoveDir, h, hp]
  · intro fs p all h hp
    simp [remove_dir, rawRemoveDir, h, hp]

/-- Witness for C5: all three branches at concrete filesystems. -/
theorem c5_witness :
    (dirExists [["a"]] ["a"] = true ∧ ∃ fs', create_dir [["a"]] ["a"] false = .ok fs') ∧
    (dirExists [["a"]] ["a", "b"] = false ∧ dirExists [["a"]] ["a"] = true ∧
      remove_dir [["a"]] ["a", "b"] true = .ok [["a"]]) ∧
    (dirExists ([] : DirFs) ["x", "y"] = false ∧ dirExists ([] : DirFs) ["x"] = false ∧
      remove_dir ([] : DirFs) ["x", "y"] false = .error .notFound) :=
  ⟨⟨by decide, c5_fs_helpers.1 [["a"]] ["a"] false (by decide)⟩,
   ⟨by decide, by decide, c5_fs_helpers.2.1 [["a"]] ["a", "b"] true (by decide) (by decide)⟩,
   ⟨by decide, by decide, c5_fs_helpers.2.2 ([] : DirFs) ["x", "y"] false (by decide) (by decide)⟩⟩

/-- Claim C4, counterexample: when the ignore file does not exist,
`Vcs::unignore` returns the `NotFound` error instead of success — the
not-found condition is not absorbed. -/
theorem c4_counterexample :
    lookupFile [] (ignoreFileName .git) = none ∧
    Vcs.unignore .git [] = .error .notFound := ⟨rfl, rfl⟩

/-- Claim C4 (amended): `Vcs::unignore` removes the per-test ignore file
when it exists; when the ignore file does not exist it fails with the
not-found error, which propagates like every other I/O error. -/
theorem c4_unignore :
    (∀ (vk : VcsKind) (files : TestDirFiles),
      (files.map Prod.fst).Nodup →
      (lookupFile files (ignoreFileName vk)).isSome = true →
      ∃ files', Vcs.unignore vk files = .ok files' ∧
        lookupFile files' (ignoreFileName vk) = none) ∧
    (∀ (vk : VcsKind) (files : TestDirFiles),
      lookupFile files (ignoreFileName vk) = none →
      Vcs.unignore vk files = .error .notFound) := by
  constructor
  · intro vk files hnd h
    obtain ⟨files', hr, hl⟩ := fsRemoveFile_some files (ignoreFileName vk) h
    exact ⟨files', hr, hl hnd⟩
  · intro vk files h
    exact lookupFile_none_fsRemoveFile files (ignoreFileName vk) h

/-- Witness for C4: removing an existing `.gitignore` succeeds and leaves
none; removing a missing `.hgignore` fails with `NotFound`. -/
theorem c4_witness :
    ((([(".gitignore", "x"), ("test.typ", "y")] : TestDirFiles).map Prod.fst).Nodup ∧
      (lookupFile [(".gitignore", "x"), ("test.typ", "y")] (ignoreFileName .git)).isSome = true ∧
      ∃ files', Vcs.unignore .git [(".gitignore", "x"), ("test.typ", "y")] = .ok files' ∧
        lookupFile files' (ignoreFileName .git) = none) ∧
    (lookupFile [("test.typ", "y")] (ignoreFileName .mercurial) = none ∧
      Vcs.unignore .mercurial [("test.typ", "y")] = .error .notFound) :=
  ⟨⟨by decide, by decide,
    c4_unignore.1 .git [(".gitignore", "x"), ("test.typ", "y")] (by decide) (by decide)⟩,
   ⟨by decide, c4_unignore.2 .mercurial [("test.typ", "y")] (by decide)⟩⟩

/-- Claim C6: the ignore file written by `Vcs::ignore` is named per VCS
kind and its entire content is determined by the test kind and VCS kind
alone — it begins with the generated-file header line followed by a blank
line, for Mercurial the `syntax: glob` line comes next, the entries
`diff/**` and `out/**` are present, `ref/**` is present iff the test kind
is not persistent, the file is rewritten from scratch (the resulting
content is independent of any pre-existing content), and writing twice
yields byte-identical files. -/
theorem c6_ignore_file :
    (∀ (vk : VcsKind) (tk : TestKind),
      (splitLines (ignoreContent vk tk)).head? = some IGNORE_HEADER ∧
      "diff/**" ∈ splitLines (ignoreContent vk tk) ∧
      "out/**" ∈ splitLines (ignoreContent vk tk) ∧
      ("ref/**" ∈ splitLines (ignoreContent vk tk) ↔ tk.is_persistent = false) ∧
      (vk = .mercurial →
        (splitLines (ignoreContent vk tk)).take 4 =
          [IGNORE_HEADER, "", "syntax: glob", "diff/**"]) ∧
      (vk = .git →
        (splitLines (ignoreContent vk tk)).take 3 = [IGNORE_HEADER, "", "diff/**"])) ∧
    (∀ (vk : VcsKind) (tk : TestKind) (files : TestDirFiles),
      lookupFile (Vcs.ignore vk tk files) (ignoreFileName vk) =
        some (ignoreContent vk tk)) ∧
    (∀ (vk : VcsKind) (tk : TestKind) (files : TestDirFiles),
      Vcs.ignore vk tk (Vcs.ignore vk tk files) = Vcs.ignore vk tk files) := by
  refine ⟨?_, ?_, ?_⟩
  · intro vk tk
    cases vk <;> cases tk <;>
      refine ⟨by decide, by decide, by decide, by decide, ?_, ?_⟩ <;>
      first
        | exact fun h => absurd h (by decide)
        | exact fun _ => by decide
  · intro vk tk files
    exact lookupFile_fsWriteFile files (ignoreFileName vk) (ignoreContent vk tk)
  · intro vk tk files
    exact fsWriteFile_fsWriteFile files (ignoreFileName vk) (ignoreContent vk tk)
      (ignoreContent vk tk)

/-- Witness for C6: the Mercurial ignore file of an ephemeral test starts
with the header, blank line, glob mode line and first entry, and rewriting
over a pre-existing file is byte-identical to a single write. -/
theorem c6_witness :
    (splitLines (ignoreContent .mercurial .ephemeral)).take 4 =
      [IGNORE_HEADER, "", "syntax: glob", "diff/**"] ∧
    lookupFile (Vcs.ignore .git .persistent [(".gitignore", "old")]) (ignoreFileName .git) =
      some (ignoreContent .git .persistent) ∧
    Vcs.ignore .git .persistent (Vcs.ignore .git .persistent [(".gitignore", "old")]) =
      Vcs.ignore .git .persistent [(".gitignore", "old")] :=
  ⟨(c6_ignore_file.1 .mercurial .ephemeral).2.2.2.2.1 rfl,
   c6_ignore_file.2.1 .git .persistent [(".gitignore", "old")],
   c6_ignore_file.2.2 .git .persistent [(".gitignore", "old")]⟩

/-- Claim C1, counterexample: with the test dir already existing on disk
(but no `test.typ` inside), `Test::create` succeeds instead of failing with
an "already exists" error — the existing directory is absorbed by
`util::fs::create_dir`. -/
theorem c1_counterexample :
    (⟨true, none, none, none, false, false, false⟩ : TestFs).testDir = true ∧
    Test.create "t" "src" none ⟨true, none, none, none, false, false, false⟩ =
      .ok (⟨"t", none, false⟩, ⟨true, some "src", none, none, false, true, true⟩) := by
  exact ⟨rfl, rfl⟩

/-- Claim C1 (amended): `Test::create` fails with an "already exists" error
exactly when the test script `test.typ` already exists; an existing test
dir alone is absorbed. Otherwise it creates the test dir, writes `test.typ`
containing exactly the given source, writes the reference artefacts
required by the chosen kind, invokes the VCS ignore operation for the
temporary directories (and the reference directory for an ephemeral test),
and returns a test with the given identifier and the kind determined by
the references. -/
theorem c1_create :
    (∀ (id source : String) (refs : Option References) (st : TestFs),
      st.testScript.isSome = true →
      Test.create id source refs st = .error .alreadyExists) ∧
    (∀ (id source : String) (refs : Option References) (st : TestFs),
      st.testScript = none →
      ∃ t st', Test.create id source refs st = .ok (t, st') ∧
        t.id = id ∧ t.ref_kind = referenceKindOf refs ∧
        t.is_ignored = isIgnoredOf source ∧
        st'.testDir = true ∧
        st'.testScript = some source ∧
        st'.outIgnored = true ∧ st'.diffIgnored = true ∧
        (∀ r, refs = some (.ephemeral r) →
          st'.refScript = some r ∧ st'.refIgnored = true) ∧
        (∀ d, refs = some (.persistent d) →
          st'.refDir = some (documentSave (st.refDir.getD []) d))) := by
  constructor
  · intro id source refs st h
    obtain ⟨td, ts, rs, rd, ri, oi, di⟩ := st
    cases ts with
    | none => simp at h
    | some s => rfl
  · intro id source refs st h
    obtain ⟨td, ts, rs, rd, ri, oi, di⟩ := st
    cases ts with
    | some s => simp at h
    | none =>
      cases refs with
      | none =>
        refine ⟨⟨id, none, isIgnoredOf source⟩,
          ⟨true, some source, rs, rd, ri, true, true⟩,
          rfl, rfl, rfl, rfl, rfl, rfl, rfl, rfl, ?_, ?_⟩
        · intro r hr
          simp at hr
        · intro d hd
          simp at hd
      | some r =>
        cases r with
        | ephemeral r =>
          refine ⟨⟨id, some .ephemeral, isIgnoredOf source⟩,
            ⟨true, some source, some r, rd, true, true, true⟩,
            rfl, rfl, rfl, rfl, rfl, rfl, rfl, rfl, ?_, ?_⟩
          · intro r' hr
            simp only [Option.some.injEq, References.ephemeral.injEq] at hr
            subst hr
            exact ⟨rfl, rfl⟩
          · intro d hd
            simp at hd
        | persistent d =>
          refine ⟨⟨id, some .persistent, isIgnoredOf source⟩,
            ⟨true, some source, rs, some (documentSave (rd.getD []) d), ri, true, true⟩,
            rfl, rfl, rfl, rfl, rfl, rfl, rfl, rfl, ?_, ?_⟩
          · intro r hr
            simp at hr
          · intro d' hd
            simp only [Option.some.injEq, References.persistent.injEq] at hd
            subst hd
            rfl

/-- Witness for C1: creating over an existing `test.typ` fails with
"already exists"; creating an ephemeral test in a fresh tree succeeds. -/
theorem c1_witness :
    ((⟨true, some "old", none, none, false, false, false⟩ : TestFs).testScript.isSome = true ∧
      Test.create "a" "s" none ⟨true, some "old", none, none, false, false, false⟩ =
        .error .alreadyExists) ∧
    (TestFs.empty.testScript = none ∧
      ∃ t st',
        Test.create "b" "s" (some (.ephemeral "r")) TestFs.empty = .ok (t, st') ∧
        t.id = "b" ∧ t.ref_kind = referenceKindOf (some (.ephemeral "r")) ∧
        t.is_ignored = isIgnoredOf "s" ∧
        st'.testDir = true ∧
        st'.testScript = some "s" ∧
        st'.outIgnored = true ∧ st'.diffIgnored = true ∧
        (∀ r, (some (References.ephemeral "r") : Option References) = some (.ephemeral r) →
          st'.refScript = some r ∧ st'.refIgnored = true) ∧
        (∀ d, (some (References.ephemeral "r") : Option References) = some (.persistent d) →
          st'.refDir = some (documentSave (TestFs.empty.refDir.getD []) d))) :=
  ⟨⟨by decide, c1_create.1 "a" "s" none ⟨true, some "old", none, none, false, false, false⟩
      (by decide)⟩,
   ⟨rfl, c1_create.2 "b" "s" (some (.ephemeral "r")) TestFs.empty rfl⟩⟩

/-- Claim C2, counterexample: three successful store mutations whose
resulting files violate the spec's kind-to-shape table. Creating a
persistent test over an existing test dir with a stray `ref.typ` leaves
`ref.typ` present; creating a persistent test from an empty reference
document leaves `ref/` without any PNG; `make_persistent` on a tree
without `test.typ` succeeds and leaves `test.typ` absent. -/
theorem c2_counterexample :
    (Test.create "t" "s" (some (.persistent [])) ⟨true, none, some "x", none, false, false, false⟩ =
        .ok (⟨"t", some .persistent, false⟩, ⟨true, some "s", some "x", some [], false, true, true⟩) ∧
      specShapeTable (some .persistent) ⟨true, some "s", some "x", some [], false, true, true⟩ = false) ∧
    (Test.create "t" "s" (some (.persistent [])) TestFs.empty =
        .ok (⟨"t", some .persistent, false⟩, ⟨true, some "s", none, some [], false, true, true⟩) ∧
      specShapeTable (some .persistent) ⟨true, some "s", none, some [], false, true, true⟩ = false) ∧
    (Test.make_persistent ⟨"t", none, false⟩ ["p"] ⟨true, none, none, none, false, false, false⟩ =
        .ok (⟨"t", some .persistent, false⟩, ⟨true, none, none, some [(1, "p")], false, false, false⟩) ∧
      specShapeTable (some .persistent) ⟨true, none, none, some [(1, "p")], false, false, false⟩ = false) := by
  exact ⟨⟨rfl, rfl⟩, ⟨rfl, rfl⟩, ⟨rfl, rfl⟩⟩

/-- Claim C2 (amended): after a successful `create` from a state where the
test dir does not yet exist, and after a successful `make_ephemeral`, or a
successful `make_persistent` / `make_compile_only` from a state where
`test.typ` exists, the files under the test dir match the kind-to-shape
table with "non-empty PNG set" weakened to "exactly one PNG per page of
the supplied document" (so `ref/` exists but may be empty when the
document has no pages), the in-memory test's kind equals the target kind,
and collecting would re-read that kind from the disk shape. -/
theorem c2_shape :
    (∀ (id source : String) (refs : Option References) (st : TestFs) (t : Test) (st' : TestFs),
      st.testDir = false → st.testScript = none → st.refScript = none → st.refDir = none →
      Test.create id source refs st = .ok (t, st') →
      shapePresence t.ref_kind st' = true ∧ t.ref_kind = referenceKindOf refs ∧
        collectKind st' = t.ref_kind ∧
        (∀ d, refs = some (.persistent d) → st'.refDir = some (documentSave [] d))) ∧
    (∀ (t : Test) (st : TestFs) (t' : Test) (st' : TestFs),
      Test.make_ephemeral t st = .ok (t', st') →
      shapePresence t'.ref_kind st' = true ∧ t'.ref_kind = some .ephemeral ∧
        collectKind st' = t'.ref_kind) ∧
    (∀ (t : Test) (d : List String) (st : TestFs) (t' : Test) (st' : TestFs),
      st.testScript.isSome = true →
      Test.make_persistent t d st = .ok (t', st') →
      shapePresence t'.ref_kind st' = true ∧ t'.ref_kind = some .persistent ∧
        collectKind st' = t'.ref_kind ∧ st'.refDir = some (documentSave [] d)) ∧
    (∀ (t : Test) (st : TestFs) (t' : Test) (st' : TestFs),
      st.testScript.isSome = true →
      Test.make_compile_only t st = .ok (t', st') →
      shapePresence t'.ref_kind st' = true ∧ t'.ref_kind = none ∧
        collectKind st' = t'.ref_kind) := by
  refine ⟨?_, ?_, ?_, ?_⟩
  · intro id source refs st t st' htd hts hrs hrd h
    obtain ⟨td, ts, rs, rd, ri, oi, di⟩ := st
    simp only at htd hts hrs hrd
    subst htd hts hrs hrd
    cases refs with
    | none =>
      cases h
      exact ⟨rfl, rfl, rfl, fun d hd => by simp at hd⟩
    | some r =>
      cases r with
      | ephemeral r =>
        cases h
        refine ⟨rfl, rfl, rfl, fun d hd => by simp at hd⟩
      | persistent d =>
        cases h
        refine ⟨rfl, rfl, rfl, ?_⟩
        intro d' hd
        simp only [Option.some.injEq, References.persistent.injEq] at hd
        subst hd
        rfl
  · intro t st t' st' h
    obtain ⟨tid, tk, tig⟩ := t
    obtain ⟨ftd, fts, frs, frd, fri, foi, fdi⟩ := st
    cases fts with
    | none =>
      cases frd with
      | none => cases ftd <;> exact (nomatch h)
      | some pages => exact (nomatch h)
    | some s =>
      cases frd with
      | none =>
        cases ftd with
        | false => exact (nomatch h)
        | true =>
          cases h
          exact ⟨rfl, rfl, rfl⟩
      | some pages =>
        cases h
        exact ⟨rfl, rfl, rfl⟩
  · intro t d st t' st' hts h
    obtain ⟨tid, tk, tig⟩ := t
    obtain ⟨ftd, fts, frs, frd, fri, foi, fdi⟩ := st
    cases fts with
    | none => simp at hts
    | some s =>
      cases frd with
      | none =>
        cases ftd with
        | false => exact (nomatch h)
        | true =>
          cases h
          exact ⟨rfl, rfl, rfl, rfl⟩
      | some pages =>
        cases h
        exact ⟨rfl, rfl, rfl, rfl⟩
  · intro t st t' st' hts h
    obtain ⟨tid, tk, tig⟩ := t
    obtain ⟨ftd, fts, frs, frd, fri, foi, fdi⟩ := st
    cases fts with
    | none => simp at hts
    | some s =>
      cases frd with
      | none =>
        cases ftd with
        | false => exact (nomatch h)
        | true =>
          cases h
          exact ⟨rfl, rfl, rfl⟩
      | some pages =>
        cases h
        exact ⟨rfl, rfl, rfl⟩

/-- Witness for C2: the four mutations at concrete states. -/
theorem c2_witness :
    (TestFs.empty.testDir = false ∧ TestFs.empty.testScript = none ∧
      TestFs.empty.refScript = none ∧ TestFs.empty.refDir = none ∧
      Test.create "w" "s" (some (.persistent ["p"])) TestFs.empty =
        .ok (⟨"w", some .persistent, false⟩, ⟨true, some "s", none, some [(1, "p")], false, true, true⟩) ∧
      shapePresence (some .persistent) ⟨true, some "s", none, some [(1, "p")], false, true, true⟩ = true) ∧
    (Test.make_ephemeral ⟨"w", none, false⟩ ⟨true, some "s", none, none, false, false, false⟩ =
        .ok (⟨"w", some .ephemeral, false⟩, ⟨true, some "s", some "s", none, true, false, false⟩) ∧
      shapePresence (some .ephemeral) ⟨true, some "s", some "s", none, true, false, false⟩ = true) ∧
    ((⟨true, some "s", some "s", none, true, false, false⟩ : TestFs).testScript.isSome = true ∧
      Test.make_persistent ⟨"w", some .ephemeral, false⟩ ["p"]
          ⟨true, some "s", some "s", none, true, false, false⟩ =
        .ok (⟨"w", some .persistent, false⟩, ⟨true, some "s", none, some [(1, "p")], false, false, false⟩) ∧
      collectKind ⟨true, some "s", none, some [(1, "p")], false, false, false⟩ = some .persistent) ∧
    ((⟨true, some "s", none, some [(1, "p")], false, false, false⟩ : TestFs).testScript.isSome = true ∧
      Test.make_compile_only ⟨"w", some .persistent, false⟩
          ⟨true, some "s", none, some [(1, "p")], false, false, false⟩ =
        .ok (⟨"w", none, false⟩, ⟨true, some "s", none, none, false, false, false⟩) ∧
      shapePresence none ⟨true, some "s", none, none, false, false, false⟩ = true) :=
  ⟨⟨rfl, rfl, rfl, rfl, rfl,
    (c2_shape.1 "w" "s" (some (.persistent ["p"])) TestFs.empty _ _ rfl rfl rfl rfl rfl).1⟩,
   ⟨rfl, (c2_shape.2.1 ⟨"w", none, false⟩ ⟨true, some "s", none, none, false, false, false⟩ _ _ rfl).1⟩,
   ⟨rfl, rfl, (c2_shape.2.2.1 ⟨"w", some .ephemeral, false⟩ ["p"]
      ⟨true, some "s", some "s", none, true, false, false⟩ _ _ rfl rfl).2.2.1⟩,
   ⟨rfl, rfl, (c2_shape.2.2.2 ⟨"w", some .persistent, false⟩
      ⟨true, some "s", none, some [(1, "p")], false, false, false⟩ _ _ rfl rfl).1⟩⟩

/-- Claim C7: each kind conversion is idempotent — when applying
`make_ephemeral`, `make_persistent` (with the same document), or
`make_compile_only` twice in succession and the underlying filesystem
operations succeed, the second application returns exactly the in-memory
test and on-disk state of the first. -/
theorem c7_make_idempotent :
    (∀ (t : Test) (st : TestFs) (t₁ : Test) (st₁ : TestFs) (t₂ : Test) (st₂ : TestFs),
      Test.make_ephemeral t st = .ok (t₁, st₁) →
      Test.make_ephemeral t₁ st₁ = .ok (t₂, st₂) → t₂ = t₁ ∧ st₂ = st₁) ∧
    (∀ (t : Test) (d : List String) (st : TestFs) (t₁ : Test) (st₁ : TestFs)
        (t₂ : Test) (st₂ : TestFs),
      Test.make_persistent t d st = .ok (t₁, st₁) →
      Test.make_persistent t₁ d st₁ = .ok (t₂, st₂) → t₂ = t₁ ∧ st₂ = st₁) ∧
    (∀ (t : Test) (st : TestFs) (t₁ : Test) (st₁ : TestFs) (t₂ : Test) (st₂ : TestFs),
      Test.make_compile_only t st = .ok (t₁, st₁) →
      Test.make_compile_only t₁ st₁ = .ok (t₂, st₂) → t₂ = t₁ ∧ st₂ = st₁) := by
  refine ⟨?_, ?_, ?_⟩
  · intro t st t₁ st₁ t₂ st₂ h₁ h₂
    obtain ⟨tid, tk, tig⟩ := t
    obtain ⟨ftd, fts, frs, frd, fri, foi, fdi⟩ := st
    cases fts with
    | none =>
      cases frd with
      | none => cases ftd <;> exact (nomatch h₁)
      | some pages => exact (nomatch h₁)
    | some s =>
      cases frd with
      | none =>
        cases ftd with
        | false => exact (nomatch h₁)
        | true =>
          cases h₁
          cases h₂
          exact ⟨rfl, rfl⟩
      | some pages =>
        cases h₁
        cases ftd with
        | false => exact (nomatch h₂)
        | true =>
          cases h₂
          exact ⟨rfl, rfl⟩
  · intro t d st t₁ st₁ t₂ st₂ h₁ h₂
    obtain ⟨tid, tk, tig⟩ := t
    obtain ⟨ftd, fts, frs, frd, fri, foi, fdi⟩ := st
    cases frd with
    | none =>
      cases ftd with
      | false => exact (nomatch h₁)
      | true =>
        cases h₁
        cases h₂
        exact ⟨rfl, rfl⟩
    | some pages =>
      cases h₁
      cases h₂
      exact ⟨rfl, rfl⟩
  · intro t st t₁ st₁ t₂ st₂ h₁ h₂
    obtain ⟨tid, tk, tig⟩ := t
    obtain ⟨ftd, fts, frs, frd, fri, foi, fdi⟩ := st
    cases frd with
    | none =>
      cases ftd with
      | false => exact (nomatch h₁)
      | true =>
        cases h₁
        cases h₂
        exact ⟨rfl, rfl⟩
    | some pages =>
      cases h₁
      cases ftd with
      | false => exact (nomatch h₂)
      | true =>
        cases h₂
        exact ⟨rfl, rfl⟩

/-- Witness for C7: the three conversions applied twice at concrete states. -/
theorem c7_witness :
    (Test.make_ephemeral ⟨"t", none, false⟩ ⟨true, some "s", none, none, false, false, false⟩ =
        .ok (⟨"t", some .ephemeral, false⟩, ⟨true, some "s", some "s", none, true, false, false⟩) ∧
      Test.make_ephemeral ⟨"t", some .ephemeral, false⟩
          ⟨true, some "s", some "s", none, true, false, false⟩ =
        .ok (⟨"t", some .ephemeral, false⟩, ⟨true, some "s", some "s", none, true, false, false⟩) ∧
      (⟨"t", some ReferenceKind.ephemeral, false⟩ : Test) = ⟨"t", some .ephemeral, false⟩ ∧
      (⟨true, some "s", some "s", none, true, false, false⟩ : TestFs) =
        ⟨true, some "s", some "s", none, true, false, false⟩) ∧
    (Test.make_persistent ⟨"t", some .ephemeral, false⟩ ["p"]
          ⟨true, some "s", some "s", none, true, false, false⟩ =
        .ok (⟨"t", some .persistent, false⟩, ⟨true, some "s", none, some [(1, "p")], false, false, false⟩) ∧
      Test.make_persistent ⟨"t", some .persistent, false⟩ ["p"]
          ⟨true, some "s", none, some [(1, "p")], false, false, false⟩ =
        .ok (⟨"t", some .persistent, false⟩, ⟨true, some "s", none, some [(1, "p")], false, false, false⟩) ∧
      (⟨"t", some ReferenceKind.persistent, false⟩ : Test) = ⟨"t", some .persistent, false⟩ ∧
      (⟨true, some "s", none, some [(1, "p")], false, false, false⟩ : TestFs) =
        ⟨true, some "s", none, some [(1, "p")], false, false, false⟩) ∧
    (Test.make_compile_only ⟨"t", some .persistent, false⟩
          ⟨true, some "s", none, some [(1, "p")], false, false, false⟩ =
        .ok (⟨"t", none, false⟩, ⟨true, some "s", none, none, false, false, false⟩) ∧
      Test.make_compile_only ⟨"t", none, false⟩ ⟨true, some "s", none, none, false, false, false⟩ =
        .ok (⟨"t", none, false⟩, ⟨true, some "s", none, none, false, false, false⟩) ∧
      (⟨"t", none, false⟩ : Test) = ⟨"t", none, false⟩ ∧
      (⟨true, some "s", none, none, false, false, false⟩ : TestFs) =
        ⟨true, some "s", none, none, false, false, false⟩) :=
  ⟨⟨rfl, rfl,
    c7_make_idempotent.1 ⟨"t", none, false⟩ ⟨true, some "s", none, none, false, false, false⟩
      ⟨"t", some .ephemeral, false⟩ ⟨true, some "s", some "s", none, true, false, false⟩
      ⟨"t", some .ephemeral, false⟩ ⟨true, some "s", some "s", none, true, false, false⟩
      rfl rfl⟩,
   ⟨rfl, rfl,
    c7_make_idempotent.2.1 ⟨"t", some .ephemeral, false⟩ ["p"]
      ⟨true, some "s", some "s", none, true, false, false⟩
      ⟨"t", some .persistent, false⟩ ⟨true, some "s", none, some [(1, "p")], false, false, false⟩
      ⟨"t", some .persistent, false⟩ ⟨true, some "s", none, some [(1, "p")], false, false, false⟩
      rfl rfl⟩,
   ⟨rfl, rfl,
    c7_make_idempotent.2.2 ⟨"t", some .persistent, false⟩
      ⟨true, some "s", none, some [(1, "p")], false, false, false⟩
      ⟨"t", none, false⟩ ⟨true, some "s", none, none, false, false, false⟩
      ⟨"t", none, false⟩ ⟨true, some "s", none, none, false, false, false⟩
      rfl rfl⟩⟩

/-- Claim C10: `Test::create` accepts a persistent references document with
zero pages — from a fresh tree it succeeds for every identifier and
source, the returned test's kind is persistent, and the reference
directory exists but contains no PNG pages. -/
theorem c10_empty_persistent :
    ∀ (id source : String),
      ∃ t st',
        Test.create id source (some (References.persistent [])) TestFs.empty = .ok (t, st') ∧
        t.id = id ∧ t.ref_kind = some .persistent ∧ st'.refDir = some [] := by
  intro id source
  exact ⟨_, _, rfl, rfl, rfl, rfl⟩

/-- Claim C3: evaluation of the arity checks. `expect_no_args` rejects any
non-empty argument list and `expect_args_exact` rejects fewer than `N`
arguments, as the claim states; but with more than `N` arguments
`expect_args_exact` succeeds on the first `N` and silently ignores the
extras, contradicting the claimed exact-arity error for oversupply. -/
theorem c3_arity_eval :
    Func.expect_no_args "all" [] = .ok () ∧
    Func.expect_no_args "all" [.num 0] =
      .error (.invalidArgumentCount "all" 0 false 1) ∧
    Func.expect_args_exact numFromValue "f" 1 [] =
      .error (.invalidArgumentCount "f" 1 false 0) ∧
    Func.expect_args_exact numFromValue "f" 1 [.num 0, .num 1] = .ok [0] := by
  exact ⟨rfl, rfl, rfl, rfl⟩

/-- Claim C8: evaluation of the jUnit writer. On a suite result with one
test result the writer hits the `todo!()` placeholder inside the per-test
loop and panics instead of emitting a `<testcase>`; and even on an empty
suite result the emitted document contains two nested `<testsuite>` start
elements (one from `write_to_string` and one from `write_suite_result`)
rather than the single claimed `<testsuite>`. -/
theorem c8_xml_eval :
    write_to_string ⟨"run", 1, 1, 0, "0", "2026-01-01T00:00:00+00:00", [()]⟩ =
      .error .todoUnimplemented ∧
    (write_to_string ⟨"run", 0, 0, 0, "0", "2026-01-01T00:00:00+00:00", []⟩).toOption.map
      countTestsuiteStarts = some 2 := by
  exact ⟨rfl, rfl⟩

theorem discoverLoop_vcs_some (fs : DirFs) (l : List DirPath)
    (pr vr : Option DirPath) (f : VcsM) :
    (discoverLoop fs l pr vr (some f)).2.2 = some f := by
  induction l generalizing pr vr with
  | nil => rfl
  | cons d rest ih =>
    cases pr with
    | some p0 => rfl
    | none =>
      cases hcm : fs.contains (d ++ [MANIFEST_FILE]) with
      | true =>
        simp only [discoverLoop, hcm]
        rfl
      | false =>
        simp only [discoverLoop, hcm]
        exact ih _ _

theorem discoverLoop_vcs_none (fs : DirFs) (l : List DirPath)
    (pr vr : Option DirPath) :
    (discoverLoop fs l pr vr none).2.2 = l.findSome? (Vcs.try_new fs) := by
  induction l generalizing pr vr with
  | nil => rfl
  | cons d rest ih =>
    rw [List.findSome?_cons]
    cases htn : Vcs.try_new fs d with
    | some found =>
      cases pr with
      | some p0 =>
        simp only [discoverLoop, htn]
        rfl
      | none =>
        cases hcm : fs.contains (d ++ [MANIFEST_FILE]) with
        | true =>
          simp only [discoverLoop, hcm, htn]
          rfl
        | false =>
          simp only [discoverLoop, hcm, htn]
          exact discoverLoop_vcs_some fs rest _ _ found
    | none =>
      cases pr with
      | some p0 =>
        simp only [discoverLoop, htn]
        exact ih _ _
      | none =>
        cases hcm : fs.contains (d ++ [MANIFEST_FILE]) with
        | true =>
          simp only [discoverLoop, hcm, htn]
          exact ih _ _
        | false =>
          simp only [discoverLoop, hcm, htn]
          exact ih _ _

/-- Claim C9: `Vcs::try_new` yields a Git-kind VCS iff the directory
contains a `.git` or `.jj` entry, a Mercurial-kind VCS iff it contains
`.hg` and neither `.git` nor `.jj`, and nothing when none of the three
exists; and whenever `Project::discover` finds a project, its VCS is the
one of the nearest ancestor containing a marker (none when no ancestor
does). -/
theorem c9_vcs_detection :
    (∀ (fs : DirFs) (root : DirPath),
      Vcs.try_new fs root = some ⟨root, .git⟩ ↔
        ((root ++ [".git"]) ∈ fs ∨ (root ++ [".jj"]) ∈ fs)) ∧
    (∀ (fs : DirFs) (root : DirPath),
      Vcs.try_new fs root = some ⟨root, .mercurial⟩ ↔
        ((root ++ [".hg"]) ∈ fs ∧ (root ++ [".git"]) ∉ fs ∧ (root ++ [".jj"]) ∉ fs)) ∧
    (∀ (fs : DirFs) (root : DirPath),
      Vcs.try_new fs root = none ↔
        ((root ++ [".git"]) ∉ fs ∧ (root ++ [".jj"]) ∉ fs ∧ (root ++ [".hg"]) ∉ fs)) ∧
    (∀ (fs : DirFs) (dir : DirPath) (ipr : Bool) (proj : ProjectM),
      Project.discover fs dir ipr = some proj → proj.vcs = nearestVcs fs dir) := by
  refine ⟨?_, ?_, ?_, ?_⟩
  · intro fs root
    by_cases hg : (root ++ [".git"]) ∈ fs <;> by_cases hj : (root ++ [".jj"]) ∈ fs <;>
      by_cases hh : (root ++ [".hg"]) ∈ fs <;>
      simp [Vcs.try_new, hg, hj, hh]
  · intro fs root
    by_cases hg : (root ++ [".git"]) ∈ fs <;> by_cases hj : (root ++ [".jj"]) ∈ fs <;>
      by_cases hh : (root ++ [".hg"]) ∈ fs <;>
      simp [Vcs.try_new, hg, hj, hh]
  · intro fs root
    by_cases hg : (root ++ [".git"]) ∈ fs <;> by_cases hj : (root ++ [".jj"]) ∈ fs <;>
      by_cases hh : (root ++ [".hg"]) ∈ fs <;>
      simp [Vcs.try_new, hg, hj, hh]
  · intro fs dir ipr proj h
    have hv := discoverLoop_vcs_none fs (pathAncestors dir)
      (if ipr then some dir else none) none
    unfold Project.discover at h
    dsimp only at h
    rcases hE : discoverLoop fs (pathAncestors dir)
        (if ipr then some dir else none) none none with ⟨pr, vr, v⟩
    rw [hE] at h hv
    cases pr with
    | none => simp at h
    | some project =>
      simp only [Option.some.injEq] at h
      subst h
      exact hv

/-- Witness for C9: discovery from a subdirectory of a project whose root
holds both the manifest and a `.git` entry. -/
theorem c9_witness :
    Project.discover [["r", ".git"], ["r", "typst.toml"]] ["r", "sub"] false =
      some ⟨⟨["r"], some ["r"]⟩, some ⟨["r"], .git⟩⟩ ∧
    (some (⟨["r"], .git⟩ : VcsM) =
      nearestVcs [["r", ".git"], ["r", "typst.toml"]] ["r", "sub"]) :=
  ⟨by decide,
   c9_vcs_detection.2.2.2 [["r", ".git"], ["r", "typst.toml"]] ["r", "sub"] false
     ⟨⟨["r"], some ["r"]⟩, some ⟨["r"], .git⟩⟩ (by decide)⟩
